import Mathlib

/-!
Shallow embedding of the reconciliation core of a Drive/local bidirectional
syncer (sources: drive_to_local_syncer.py, local_to_drive_syncer.py,
database_manager.py, database.py).

Modelling conventions:
* timestamps are integers on a single timezone-naive clock (the source
  normalizes parsed remote times with replace(tzinfo=None) before comparing;
  a parsed-but-missing timestamp is none);
* byte sizes are naturals;
* the local filesystem is a map from path strings to stat data, with path
  join modelled as string concatenation with a slash;
* fallible Python code (attribute access on None, transport failures) is
  modelled with Except; Python try/except around a call becomes a match on
  the Except value;
* log output that the source emits (logger.info in the download-direction
  needs-update check, logger.error in the per-file download handler) is part
  of the observable state.
-/

/-- Timezone-naive timestamps, after the source's normalization. -/
abbrev Time := Int

/-- Stat data of one local filesystem entry (file or directory). -/
structure LocalFile where
  size : Nat
  mtime : Time
  md5 : String
  deriving DecidableEq

/-- The local filesystem: a map from absolute path to stat data. -/
abbrev FS := String → Option LocalFile

/-- A remote item descriptor as returned by files().list with fields
id, name, mimeType, modifiedTime, md5Checksum, size.  A missing field is
none (the source reads them with item.get). -/
structure RemoteItem where
  id : String
  name : String
  mimeType : String
  modifiedTime : Option Time
  md5Checksum : Option String
  size : Option Nat
  deriving DecidableEq

/-- Errors the modelled Python code can raise. -/
inductive SyncErr where
  /-- AttributeError from touching .tzinfo / .replace on a None mtime. -/
  | attributeError
  /-- TypeError from comparing None with a number or datetime. -/
  | typeError
  /-- OSError from stat on a missing file. -/
  | osError
  /-- a transport error propagated out of the HTTP client -/
  | transport (msg : String)
  deriving DecidableEq

/-- One row of the files table (database.py, class File). -/
structure FileRec where
  id : Nat
  type : String
  local_path : String
  remote_id : String
  parent_id : Option Nat
  name : String
  checksum : Option String
  last_modified_remote : Option Time
  last_modified_local : Option Time
  sync_status : String
  file_size : Option Nat
  local_size : Option Nat
  deriving DecidableEq

/-- The mutable column values written by DatabaseManager._prepare_file_attributes
(everything of a File row except the autoincrement primary key). -/
structure FileAttrs where
  type : String
  local_path : String
  remote_id : String
  parent_id : Option Nat
  name : String
  checksum : Option String
  last_modified_remote : Option Time
  last_modified_local : Option Time
  sync_status : String
  file_size : Option Nat
  local_size : Option Nat
  deriving DecidableEq

/-- The files table plus the autoincrement counter. -/
structure Db where
  files : List FileRec
  nextId : Nat

namespace DatabaseManager

/-- MD5 of a local file, none when the path does not exist
(DatabaseManager._get_local_checksum). -/
def get_local_checksum (fs : FS) (path : String) : Option String :=
  (fs path).map (fun lf => lf.md5)

/-- Local mtime, none when the path does not exist
(DatabaseManager._get_file_modified_time). -/
def get_file_modified_time (fs : FS) (path : String) : Option Time :=
  (fs path).map (fun lf => lf.mtime)

/-- DatabaseManager.get_file_by_local_path: first row with that local_path. -/
def get_file_by_local_path (db : Db) (path : String) : Option FileRec :=
  db.files.find? (fun f => f.local_path == path)

/-- DatabaseManager.get_file_by_remote_id: first row with that remote_id. -/
def get_file_by_remote_id (db : Db) (rid : String) : Option FileRec :=
  db.files.find? (fun f => f.remote_id == rid)

/-- DatabaseManager._prepare_file_attributes.  For folders checksum and both
sizes stay None; for files the remote size defaults to 0 when the item has
no size field, and the local size to 0 when the path does not exist. -/
def prepare_file_attributes (fs : FS) (item : RemoteItem) (path : String)
    (parentId : Option Nat) (itemType : String) : FileAttrs :=
  let checksum : Option String :=
    if itemType = "folder" then none
    else match item.md5Checksum with
      | some c => some c
      | none => get_local_checksum fs path
  let remoteSize : Option Nat :=
    if itemType = "folder" then none else some (item.size.getD 0)
  let localSize : Option Nat :=
    if itemType = "folder" then none
    else some (((fs path).map (fun lf => lf.size)).getD 0)
  { type := itemType
    local_path := path
    remote_id := item.id
    parent_id := parentId
    name := item.name
    checksum := checksum
    last_modified_remote := item.modifiedTime
    last_modified_local := get_file_modified_time fs path
    sync_status := "synced"
    file_size := remoteSize
    local_size := localSize }

/-- setattr of every prepared attribute on an existing row; the primary key
is untouched. -/
def applyAttrs (f : FileRec) (a : FileAttrs) : FileRec :=
  { f with
    type := a.type
    local_path := a.local_path
    remote_id := a.remote_id
    parent_id := a.parent_id
    name := a.name
    checksum := a.checksum
    last_modified_remote := a.last_modified_remote
    last_modified_local := a.last_modified_local
    sync_status := a.sync_status
    file_size := a.file_size
    local_size := a.local_size }

/-- A fresh row built from prepared attributes (File(**file_attrs)). -/
def mkRec (rid : Nat) (a : FileAttrs) : FileRec :=
  { id := rid
    type := a.type
    local_path := a.local_path
    remote_id := a.remote_id
    parent_id := a.parent_id
    name := a.name
    checksum := a.checksum
    last_modified_remote := a.last_modified_remote
    last_modified_local := a.last_modified_local
    sync_status := a.sync_status
    file_size := a.file_size
    local_size := a.local_size }

/-- In-place update of the first row whose remote_id matches (the ORM row
returned by .first() is mutated by setattr). -/
def replaceByRemoteId : List FileRec → String → FileAttrs → List FileRec
  | [], _, _ => []
  | f :: rest, rid, a =>
    if f.remote_id = rid then applyAttrs f a :: rest
    else f :: replaceByRemoteId rest rid a

/-- DatabaseManager.update_file_record: upsert keyed by the item's remote id.
Returns the created/updated row and the new table state. -/
def update_file_record (fs : FS) (db : Db) (item : RemoteItem) (path : String)
    (parentId : Option Nat) (itemType : String) : FileRec × Db :=
  let attrs := prepare_file_attributes fs item path parentId itemType
  match get_file_by_remote_id db item.id with
  | some f =>
      (applyAttrs f attrs,
       { db with files := replaceByRemoteId db.files item.id attrs })
  | none =>
      let f := mkRec db.nextId attrs
      (f, { files := db.files ++ [f], nextId := db.nextId + 1 })

end DatabaseManager

/-- The size-comparison line logged by the download-direction needs-update
check: (remote size, local size). -/
abbrev LogEntry := Nat × Nat

namespace DriveLocalSyncer

/-- DriveLocalSyncer._needs_update (download direction).  Returns the
decision together with the info-log lines it emits.  A missing local file
decides immediately; otherwise remote size less-or-equal local size decides
false; only then is the modified-time comparison reached, which raises
AttributeError when the remote item has no modifiedTime (remote_mtime is
None and .tzinfo is accessed on it). -/
def needs_update (fs : FS) (item : RemoteItem) (localPath : String) :
    Except SyncErr (Bool × List LogEntry) :=
  match fs localPath with
  | none => .ok (true, [])
  | some lf =>
    let remoteSize := item.size.getD 0
    let localSize := lf.size
    let logs : List LogEntry := [(remoteSize, localSize)]
    if remoteSize ≤ localSize then .ok (false, logs)
    else
      match item.modifiedTime with
      | none => .error .attributeError
      | some rm => .ok (decide (lf.mtime < rm), logs)

/-- The boolean decision of the download-direction check. -/
def needs_updateB (fs : FS) (item : RemoteItem) (localPath : String) :
    Except SyncErr Bool :=
  (needs_update fs item localPath).map (fun p => p.1)

end DriveLocalSyncer

/-- Claim C1, counterexample to the claim as stated: a file present on both
sides with equal sizes (remote 100, local 100) and a strictly later remote
modification time (50 over 0) is classified as NOT needing a download — the
source returns False whenever remote size is less-or-equal local size, so
equal sizes never fall through to the timestamp comparison. -/
theorem c1_counterexample :
    (fun p => if p = "/root/a.txt" then some ⟨100, 0, "h"⟩ else none : FS) "/root/a.txt"
      = some ⟨100, 0, "h"⟩ ∧
    (⟨"r1", "a.txt", "text/plain", some 50, none, some 100⟩ : RemoteItem).size = some 100 ∧
    (⟨"r1", "a.txt", "text/plain", some 50, none, some 100⟩ : RemoteItem).modifiedTime = some 50 ∧
    ((0 : Time) < 50) ∧
    DriveLocalSyncer.needs_updateB
      (fun p => if p = "/root/a.txt" then some ⟨100, 0, "h"⟩ else none)
      ⟨"r1", "a.txt", "text/plain", some 50, none, some 100⟩ "/root/a.txt"
      = .ok false := by
  refine ⟨rfl, rfl, rfl, by decide, ?_⟩
  rfl

/-- Claim C1 (amended): for a file present on both sides, a remote size
less-or-equal the local size (equal sizes included) yields no download
regardless of either modification time; the modified-time comparison is
consulted only when the remote size strictly exceeds the local size, and
then a strictly later remote time yields a download. -/
theorem c1_amended_thm (fs : FS) (item : RemoteItem) (path : String)
    (lf : LocalFile) (hfs : fs path = some lf) :
    (item.size.getD 0 ≤ lf.size →
      DriveLocalSyncer.needs_updateB fs item path = .ok false) ∧
    (∀ rm : Time, lf.size < item.size.getD 0 → item.modifiedTime = some rm →
      DriveLocalSyncer.needs_updateB fs item path = .ok (decide (lf.mtime < rm))) := by
  constructor
  · intro hle
    simp [DriveLocalSyncer.needs_updateB, DriveLocalSyncer.needs_update, hfs, hle, Except.map]
  · intro rm hlt hmt
    simp [DriveLocalSyncer.needs_updateB, DriveLocalSyncer.needs_update, hfs,
      Nat.not_le.mpr hlt, hmt, Except.map]

/-- Claim C1, witness: the amended theorem applied at remote size 100 /
local size 100 (no download) and at remote size 200 over local 100 with a
later remote time (download). -/
theorem c1_witness :
    (DriveLocalSyncer.needs_updateB
      (fun p => if p = "/root/a.txt" then some ⟨100, 0, "h"⟩ else none)
      ⟨"r1", "a.txt", "text/plain", some 50, none, some 100⟩ "/root/a.txt"
      = .ok false) ∧
    (DriveLocalSyncer.needs_updateB
      (fun p => if p = "/root/a.txt" then some ⟨100, 0, "h"⟩ else none)
      ⟨"r1", "a.txt", "text/plain", some 50, none, some 200⟩ "/root/a.txt"
      = .ok (decide ((0 : Time) < 50))) :=
  ⟨(c1_amended_thm (fun p => if p = "/root/a.txt" then some ⟨100, 0, "h"⟩ else none)
      ⟨"r1", "a.txt", "text/plain", some 50, none, some 100⟩ "/root/a.txt"
      ⟨100, 0, "h"⟩ rfl).1 (by decide),
   (c1_amended_thm (fun p => if p = "/root/a.txt" then some ⟨100, 0, "h"⟩ else none)
      ⟨"r1", "a.txt", "text/plain", some 50, none, some 200⟩ "/root/a.txt"
      ⟨100, 0, "h"⟩ rfl).2 50 (by decide) rfl⟩

/-- Claim C9: a remote file item with no size field is treated as remote
size 0 both by the change check and by the prepared record attributes, so
whenever the local file exists the download-direction check returns false
no matter the modification times. -/
theorem c9_missing_size (fs : FS) (item : RemoteItem) (path : String)
    (lf : LocalFile) (pid : Option Nat)
    (hsize : item.size = none) (hfs : fs path = some lf) :
    DriveLocalSyncer.needs_updateB fs item path = .ok false ∧
    (DatabaseManager.prepare_file_attributes fs item path pid "file").file_size
      = some 0 := by
  constructor
  · simp [DriveLocalSyncer.needs_updateB, DriveLocalSyncer.needs_update, hfs, hsize, Except.map]
  · simp [DatabaseManager.prepare_file_attributes, hsize]

/-- Claim C9, witness: a sizeless remote item over an existing 7-byte local
file with a much later remote time is still classified as up to date. -/
theorem c9_witness :
    DriveLocalSyncer.needs_updateB
      (fun p => if p = "/root/n.bin" then some ⟨7, 0, "h"⟩ else none)
      ⟨"r9", "n.bin", "application/octet-stream", some 999, none, none⟩ "/root/n.bin"
      = .ok false ∧
    (DatabaseManager.prepare_file_attributes
      (fun p => if p = "/root/n.bin" then some ⟨7, 0, "h"⟩ else none)
      ⟨"r9", "n.bin", "application/octet-stream", some 999, none, none⟩
      "/root/n.bin" (some 0) "file").file_size = some 0 :=
  c9_missing_size
    (fun p => if p = "/root/n.bin" then some ⟨7, 0, "h"⟩ else none)
    ⟨"r9", "n.bin", "application/octet-stream", some 999, none, none⟩
    "/root/n.bin" ⟨7, 0, "h"⟩ (some 0) rfl rfl

/-- The Drive export map for remote-native document types
(EXPORT_MIME_MAP in drive_to_local_syncer.py): export MIME and file
extension. -/
def EXPORT_MIME_MAP (mimeType : String) : Option (String × String) :=
  if mimeType = "application/vnd.google-apps.document" then
    some ("application/pdf", ".pdf")
  else if mimeType = "application/vnd.google-apps.spreadsheet" then
    some ("application/vnd.openxmlformats-officedocument.spreadsheetml.sheet", ".xlsx")
  else if mimeType = "application/vnd.google-apps.presentation" then
    some ("application/pdf", ".pdf")
  else none

/-- The MIME type the walk dispatches on. -/
def folderMime : String := "application/vnd.google-apps.folder"

/-- External collaborators of the remote-to-local walk: the Drive listing,
the byte transfer (on success the stat of the file it wrote; on failure the
error message together with the stat of the partial file left behind,
since the target is opened for writing before the chunks arrive), and the
stat a mkdir gives a fresh directory. -/
structure Env where
  listChildren : String → List RemoteItem
  net : RemoteItem → Except (String × LocalFile) LocalFile
  dirStat : LocalFile

/-- Observable state threaded through the remote-to-local walk: local
filesystem, files table, ids of completed transfers, info-log lines of the
needs-update check, error-log lines of the per-file download handler. -/
structure SyncState where
  fs : FS
  db : Db
  downloads : List String
  infoLogs : List LogEntry
  errorLogs : List String

/-- Write one filesystem entry. -/
def writeF (fs : FS) (path : String) (lf : LocalFile) : FS :=
  fun p => if p = path then some lf else fs p

/-- mkdir(parents=True, exist_ok=True) on one path: keeps an existing
entry, otherwise creates a directory entry. -/
def mkdirP (fs : FS) (path : String) (d : LocalFile) : FS :=
  match fs path with
  | some _ => fs
  | none => writeF fs path d

namespace DriveLocalSyncer

/-- Where DriveLocalSyncer._perform_download writes: the folder path joined
with the file name, plus the export extension for remote-native document
types. -/
def downloadTargetPath (folderPath : String) (item : RemoteItem) : String :=
  match EXPORT_MIME_MAP item.mimeType with
  | some (_, ext) => folderPath ++ "/" ++ item.name ++ ext
  | none => folderPath ++ "/" ++ item.name

/-- DriveLocalSyncer._perform_download: on success returns the path written
and the state with the new file and the transfer recorded; on failure the
partial file is still on disk at the target path. -/
def perform_download (env : Env) (item : RemoteItem) (folderPath : String)
    (s : SyncState) : Except SyncErr String × SyncState :=
  let path := downloadTargetPath folderPath item
  match env.net item with
  | .error (m, part) =>
      (.error (.transport m), { s with fs := writeF s.fs path part })
  | .ok lf =>
      (.ok path,
       { s with fs := writeF s.fs path lf, downloads := s.downloads ++ [item.id] })

/-- DriveLocalSyncer._download_file: try the transfer then upsert the record
at the downloaded path; any exception is caught and logged with the file's
name, so this function is total. -/
def download_file (env : Env) (item : RemoteItem) (localPath : String)
    (parentId : Option Nat) (s : SyncState) : SyncState :=
  match perform_download env item localPath s with
  | (.error _, s1) => { s1 with errorLogs := s1.errorLogs ++ [item.name] }
  | (.ok path, s1) =>
      let (_, db2) := DatabaseManager.update_file_record s1.fs s1.db item path parentId "file"
      { s1 with db := db2 }

/-- DriveLocalSyncer._process_file_item: probe the plain joined path (no
export extension), download when stale.  An error raised by the
needs-update check propagates — only the download itself is guarded. -/
def process_file_item (env : Env) (item : RemoteItem) (localPath : String)
    (parentId : Option Nat) (s : SyncState) : Except SyncErr SyncState :=
  let filePath := localPath ++ "/" ++ item.name
  match needs_update s.fs item filePath with
  | .error e => .error e
  | .ok (b, logs) =>
      let s1 := { s with infoLogs := s.infoLogs ++ logs }
      if b then .ok (download_file env item localPath parentId s1) else .ok s1

/-- DriveLocalSyncer._process_folder_item: ensure the local directory,
upsert a folder record, recurse into the remote folder with the new
record's id as parent. -/
def process_folder_item (env : Env)
    (recurse : String → String → Option Nat → SyncState → Except SyncErr SyncState)
    (item : RemoteItem) (localPath : String) (parentId : Option Nat)
    (s : SyncState) : Except SyncErr SyncState :=
  let folderPath := localPath ++ "/" ++ item.name
  let fs1 := mkdirP s.fs folderPath env.dirStat
  let (dbFolder, db1) :=
    DatabaseManager.update_file_record fs1 s.db item folderPath parentId "folder"
  recurse item.id folderPath (some dbFolder.id) { s with fs := fs1, db := db1 }

end DriveLocalSyncer

/-- A Python value as far as truthiness of the walk's dispatch expression is
concerned: the two handler calls return None, the mimeType comparison a
bool. -/
inductive PyVal where
  | none_
  | bool_ (b : Bool)

/-- Python truthiness. -/
def truthy : PyVal → Bool
  | .none_ => false
  | .bool_ b => b

/-- A Python expression evaluated for value and effect over state sigma,
possibly raising. -/
abbrev PyM (σ : Type) := σ → Except SyncErr (PyVal × σ)

/-- Python short-circuit `and`: evaluate the left operand; if falsy it is
the result, otherwise evaluate the right operand. -/
def pyAndM {σ : Type} (a b : PyM σ) : PyM σ := fun s =>
  match a s with
  | .error e => .error e
  | .ok (v, s1) => if truthy v then b s1 else .ok (v, s1)

/-- Python short-circuit `or`: evaluate the left operand; if truthy it is
the result, otherwise evaluate the right operand. -/
def pyOrM {σ : Type} (a b : PyM σ) : PyM σ := fun s =>
  match a s with
  | .error e => .error e
  | .ok (v, s1) => if truthy v then .ok (v, s1) else b s1

namespace DriveLocalSyncer

/-- The loop body of DriveLocalSyncer._process_folder for one child:
`item["mimeType"] == folder-mime and _process_folder_item(...) or
_process_file_item(...)`, with both handler calls returning Python None
and the expression's value discarded. -/
def processChild (env : Env)
    (recurse : String → String → Option Nat → SyncState → Except SyncErr SyncState)
    (item : RemoteItem) (localPath : String) (parentId : Option Nat)
    (s : SyncState) : Except SyncErr SyncState :=
  (pyOrM
      (pyAndM (fun st => .ok (.bool_ (item.mimeType == folderMime), st))
        (fun st => (process_folder_item env recurse item localPath parentId st).map
          (fun st' => (.none_, st'))))
      (fun st => (process_file_item env item localPath parentId st).map
        (fun st' => (.none_, st')))
      s).map (fun p => p.2)

/-- The `for item in items` loop of DriveLocalSyncer._process_folder: an
exception raised while processing one child aborts the loop. -/
def processItems (step : RemoteItem → SyncState → Except SyncErr SyncState) :
    List RemoteItem → SyncState → Except SyncErr SyncState
  | [], s => .ok s
  | it :: rest, s =>
    match step it s with
    | .error e => .error e
    | .ok s1 => processItems step rest s1

/-- DriveLocalSyncer._process_folder: list the remote children and run the
dispatch expression on each.  Recursion depth is bounded by fuel; the
source recurses on an acyclic remote tree, so any fuel at least the tree
height is faithful. -/
def process_folder (env : Env) :
    Nat → String → String → Option Nat → SyncState → Except SyncErr SyncState
  | 0, _, _, _, s => .ok s
  | fuel + 1, folderId, localPath, parentId, s =>
    processItems
      (fun it s' => processChild env (process_folder env fuel) it localPath parentId s')
      (env.listChildren folderId) s

/-- The per-child step of the folder walk at a given recursion budget. -/
def childStep (env : Env) (fuel : Nat) (localPath : String) (parentId : Option Nat) :
    RemoteItem → SyncState → Except SyncErr SyncState :=
  fun it s => processChild env (process_folder env fuel) it localPath parentId s

end DriveLocalSyncer

namespace DriveLocalSyncer

/-- On a non-folder child the dispatch short-circuits the `and` and the
`or` falls through to the file handler alone. -/
theorem processChild_file (env : Env) (recurse) (item : RemoteItem)
    (localPath : String) (parentId : Option Nat) (s : SyncState)
    (h : item.mimeType ≠ folderMime) :
    processChild env recurse item localPath parentId s
      = process_file_item env item localPath parentId s := by
  unfold processChild pyOrM pyAndM
  simp only [truthy, beq_eq_false_iff_ne.mpr h]
  cases hf : process_file_item env item localPath parentId s <;>
    simp [Except.map, truthy, hf]

/-- On a folder child the folder handler runs, returns None (falsy), and the
`or` then runs the file handler on the folder handler's result state. -/
theorem processChild_folder (env : Env) (recurse) (item : RemoteItem)
    (localPath : String) (parentId : Option Nat) (s : SyncState)
    (h : item.mimeType = folderMime) :
    processChild env recurse item localPath parentId s
      = match process_folder_item env recurse item localPath parentId s with
        | .error e => .error e
        | .ok s1 => process_file_item env item localPath parentId s1 := by
  unfold processChild pyOrM pyAndM
  simp only [truthy, h, beq_self_eq_true, if_true]
  cases hf : process_folder_item env recurse item localPath parentId s with
  | error e => simp [Except.map]
  | ok s1 =>
    simp only [Except.map, truthy]
    cases hg : process_file_item env item localPath parentId s1 <;> simp [Except.map, hg]

end DriveLocalSyncer

/-- The initial state of a fresh sync: empty local tree, empty files table. -/
def s0 : SyncState :=
  { fs := fun _ => none, db := { files := [], nextId := 1 },
    downloads := [], infoLogs := [], errorLogs := [] }

/-- Stat of a freshly created directory in the concrete runs. -/
def cDirStat : LocalFile := ⟨4096, 0, "d"⟩

/-- Extract the state of a successful walk step, with a default. -/
def stateOf (r : Except SyncErr SyncState) (d : SyncState) : SyncState :=
  match r with
  | .ok s => s
  | .error _ => d

/-- An environment for a concrete run: no grandchildren, transfers succeed. -/
def cEnv3 : Env :=
  { listChildren := fun _ => [], net := fun _ => .ok ⟨1, 1, "m"⟩, dirStat := cDirStat }

/-- A remote folder child (no size field, as Drive reports for folders). -/
def cFolderItem : RemoteItem :=
  ⟨"d1", "sub", "application/vnd.google-apps.folder", some 5, none, none⟩

/-- A plain remote file child. -/
def cFileItemPlain : RemoteItem := ⟨"f2", "a.txt", "text/plain", some 5, none, some 3⟩

/-- State after the folder handler alone has processed the folder child. -/
def cS1 : SyncState :=
  stateOf (DriveLocalSyncer.process_folder_item cEnv3
    (DriveLocalSyncer.process_folder cEnv3 1) cFolderItem "/root" (some 0) s0) s0

/-- Claim C3, counterexample to the claim as stated: on a concrete folder
child the dispatch expression runs the file handler too — the walk's state
ends with the size-comparison info-log line that only the needs-update
check inside the file handler emits, while the folder handler alone emits
none.  The folder handler returns Python None, which is falsy, so the `or`
branch also runs; the dispatch is not exclusive and differs from explicit
if/else. -/
theorem c3_counterexample :
    cFolderItem.mimeType = folderMime ∧
    (DriveLocalSyncer.processChild cEnv3 (DriveLocalSyncer.process_folder cEnv3 1)
        cFolderItem "/root" (some 0) s0).map (fun st => st.infoLogs)
      = .ok [(0, 4096)] ∧
    (DriveLocalSyncer.process_folder_item cEnv3 (DriveLocalSyncer.process_folder cEnv3 1)
        cFolderItem "/root" (some 0) s0).map (fun st => st.infoLogs)
      = .ok [] :=
  ⟨rfl, rfl, rfl⟩

/-- Claim C3 (amended): a file child triggers only the file handler; a
folder child triggers the folder handler and then, because the folder
handler returns None (falsy), also the file handler on the resulting
state; for folder children carrying no size field whose local directory
exists after the folder handler, the extra file-handler call performs no
download and changes nothing but the info log, so explicit if/else dispatch
would change only that log line. -/
theorem c3_amended_thm (env : Env)
    (recurse : String → String → Option Nat → SyncState → Except SyncErr SyncState)
    (localPath : String) (parentId : Option Nat) :
    (∀ item s, item.mimeType ≠ folderMime →
      DriveLocalSyncer.processChild env recurse item localPath parentId s
        = DriveLocalSyncer.process_file_item env item localPath parentId s) ∧
    (∀ item s, item.mimeType = folderMime →
      DriveLocalSyncer.processChild env recurse item localPath parentId s
        = match DriveLocalSyncer.process_folder_item env recurse item localPath parentId s with
          | .error e => .error e
          | .ok s1 => DriveLocalSyncer.process_file_item env item localPath parentId s1) ∧
    (∀ item s s1 lf, item.mimeType = folderMime → item.size = none →
      DriveLocalSyncer.process_folder_item env recurse item localPath parentId s = .ok s1 →
      s1.fs (localPath ++ "/" ++ item.name) = some lf →
      DriveLocalSyncer.processChild env recurse item localPath parentId s
        = .ok { s1 with infoLogs := s1.infoLogs ++ [(0, lf.size)] }) := by
  refine ⟨fun item s h => DriveLocalSyncer.processChild_file env recurse item
      localPath parentId s h,
    fun item s h => DriveLocalSyncer.processChild_folder env recurse item
      localPath parentId s h, ?_⟩
  intro item s s1 lf hmime hsize hfold hfs
  rw [DriveLocalSyncer.processChild_folder env recurse item localPath parentId s hmime,
    hfold]
  simp [DriveLocalSyncer.process_file_item, DriveLocalSyncer.needs_update, hfs, hsize]

/-- Claim C3, witness: the amended theorem at a plain file child (file
handler only) and at the concrete folder child (folder handler, then a
file-handler call that only logs). -/
theorem c3_witness :
    (DriveLocalSyncer.processChild cEnv3 (DriveLocalSyncer.process_folder cEnv3 1)
        cFileItemPlain "/root" (some 0) s0
      = DriveLocalSyncer.process_file_item cEnv3 cFileItemPlain "/root" (some 0) s0) ∧
    (DriveLocalSyncer.processChild cEnv3 (DriveLocalSyncer.process_folder cEnv3 1)
        cFolderItem "/root" (some 0) s0
      = .ok { cS1 with infoLogs := cS1.infoLogs ++ [(0, cDirStat.size)] }) :=
  ⟨(c3_amended_thm cEnv3 (DriveLocalSyncer.process_folder cEnv3 1) "/root" (some 0)).1
      cFileItemPlain s0 (by decide),
   (c3_amended_thm cEnv3 (DriveLocalSyncer.process_folder cEnv3 1) "/root" (some 0)).2.2
      cFolderItem s0 cS1 cDirStat rfl rfl rfl rfl⟩

/-- A remote-native document item: no size field, exported with a pdf
extension on download. -/
def cItemDoc : RemoteItem :=
  ⟨"g1", "doc", "application/vnd.google-apps.document", some 10, none, none⟩

/-- Environment for the export run: the export transfer succeeds and writes
a 2048-byte file. -/
def cEnv2 : Env :=
  { listChildren := fun _ => [], net := fun _ => .ok ⟨2048, 100, "m"⟩, dirStat := cDirStat }

/-- State after the first remote-to-local pass over the document item. -/
def cS2 : SyncState :=
  stateOf (DriveLocalSyncer.process_file_item cEnv2 cItemDoc "/root" (some 0) s0) s0

/-- Claim C2, evaluation at the failing input: the first pass downloads the
document item and writes the export to /root/doc.pdf, leaving nothing at
/root/doc — but the change check of the second pass probes /root/doc (the
plain joined name, without the export extension), so with no intervening
remote change it still classifies the item as needing download, and the
second pass transfers it again instead of performing zero transfers. -/
theorem c2_eval :
    cS2.downloads = ["g1"] ∧
    (cS2.fs "/root/doc.pdf").isSome = true ∧
    cS2.fs "/root/doc" = none ∧
    DriveLocalSyncer.needs_updateB cS2.fs cItemDoc ("/root" ++ "/" ++ cItemDoc.name)
      = .ok true ∧
    (DriveLocalSyncer.process_file_item cEnv2 cItemDoc "/root" (some 0) cS2).map
        (fun st => st.downloads)
      = .ok ["g1", "g1"] :=
  ⟨rfl, rfl, rfl, rfl, rfl⟩

/-- External collaborators of the local-to-Drive walk: files().update keyed
by the existing remote id, and files().create keyed by name and remote
parent; both return the response descriptor (fields id, name, modifiedTime
— the responses carry no size field) or a transport error. -/
structure UpEnv where
  updateFile : String → Except String RemoteItem
  createFile : String → String → Except String RemoteItem

namespace LocalDriveSyncer

/-- LocalDriveSyncer._needs_update (upload direction), judged against the
record's stored remote state.  A None stored file_size raises TypeError at
the size comparison; a None stored remote mtime raises TypeError at the
final timestamp comparison.  Remote recorded size at least local size
returns False; otherwise the decision is whether the local mtime is
strictly later. -/
def needs_update (rec : FileRec) (lf : LocalFile) : Except SyncErr Bool :=
  match rec.file_size with
  | none => .error .typeError
  | some remoteSize =>
    if lf.size ≤ remoteSize then .ok false
    else
      match rec.last_modified_remote with
      | none => .error .typeError
      | some rm => .ok (decide (rm < lf.mtime))

/-- LocalDriveSyncer._update_existing_file: check staleness, then update
the remote content and upsert the record from the update response.  The
transport error of the update propagates to the caller. -/
def update_existing_file (env : UpEnv) (fs : FS) (db : Db) (rec : FileRec)
    (path : String) : Except SyncErr Db :=
  match fs path with
  | none => .error .osError
  | some lf =>
    match needs_update rec lf with
    | .error e => .error e
    | .ok false => .ok db
    | .ok true =>
      match env.updateFile rec.remote_id with
      | .error m => .error (.transport m)
      | .ok resp =>
          .ok (DatabaseManager.update_file_record fs db resp path rec.parent_id "file").2

/-- LocalDriveSyncer._upload_new_file followed by _update_new_file_record:
create the remote file, then upsert with the parent resolved by the
containing folder's local path (None when the parent is not indexed). -/
def upload_new_file (env : UpEnv) (fs : FS) (db : Db) (folderPath name : String)
    (remoteParentId : String) : Except SyncErr Db :=
  let path := folderPath ++ "/" ++ name
  match env.createFile name remoteParentId with
  | .error m => .error (.transport m)
  | .ok resp =>
      let parentRec := DatabaseManager.get_file_by_local_path db folderPath
      .ok (DatabaseManager.update_file_record fs db resp path
        (parentRec.map (fun r => r.id)) "file").2

/-- LocalDriveSyncer._sync_local_file: dispatch on an existing index record
and catch any error, logging the file's path; the table is the one from
before the failed branch. -/
def sync_local_file (env : UpEnv) (fs : FS) (db : Db)
    (folderPath name remoteParentId : String) : Db × List String :=
  let path := folderPath ++ "/" ++ name
  match DatabaseManager.get_file_by_local_path db path with
  | some rec =>
    match update_existing_file env fs db rec path with
    | .ok db1 => (db1, [])
    | .error _ => (db, [path])
  | none =>
    match upload_new_file env fs db folderPath name remoteParentId with
    | .ok db1 => (db1, [])
    | .error _ => (db, [path])

end LocalDriveSyncer

/-- An index record whose stored remote size is 1 and stored remote mtime 5. -/
def cRec4 : FileRec :=
  { id := 1, type := "file", local_path := "/root/u.txt", remote_id := "u1",
    parent_id := some 0, name := "u.txt", checksum := none,
    last_modified_remote := some 5, last_modified_local := some 3,
    sync_status := "synced", file_size := some 1, local_size := some 2 }

/-- Claim C4, counterexample to the claim as stated: a local file of size 2
against a stored remote size of 1 (local strictly greater) is NOT uploaded,
because its local mtime (3) is not later than the stored remote mtime (5) —
the upload-direction check requires the timestamp condition besides the
size condition, so size alone is not the primary signal. -/
theorem c4_counterexample :
    cRec4.file_size = some 1 ∧
    (⟨2, 3, "m"⟩ : LocalFile).size = 2 ∧
    LocalDriveSyncer.needs_update cRec4 ⟨2, 3, "m"⟩ = .ok false :=
  ⟨rfl, rfl, rfl⟩

/-- Claim C4 (amended): with an existing index record, a stored remote size
at least the local size yields no upload; when the local size strictly
exceeds the stored remote size, an upload is needed exactly when the local
mtime is also strictly later than the stored remote mtime — size is a
necessary gate, not a sufficient signal, and equal sizes never reach the
timestamp comparison. -/
theorem c4_amended_thm (rec : FileRec) (lf : LocalFile) (rs : Nat)
    (hsz : rec.file_size = some rs) :
    (lf.size ≤ rs → LocalDriveSyncer.needs_update rec lf = .ok false) ∧
    (∀ rm : Time, rs < lf.size → rec.last_modified_remote = some rm →
      LocalDriveSyncer.needs_update rec lf = .ok (decide (rm < lf.mtime))) := by
  constructor
  · intro hle
    simp [LocalDriveSyncer.needs_update, hsz, hle]
  · intro rm hlt hmt
    simp [LocalDriveSyncer.needs_update, hsz, Nat.not_le.mpr hlt, hmt]

/-- Claim C4, witness: the amended theorem at stored remote size 1 — no
upload for an equal-size (1-byte) local file, and for a 2-byte local file
the decision equals the strict timestamp comparison. -/
theorem c4_witness :
    LocalDriveSyncer.needs_update cRec4 ⟨1, 9, "m"⟩ = .ok false ∧
    LocalDriveSyncer.needs_update cRec4 ⟨2, 3, "m"⟩
      = .ok (decide ((5 : Time) < 3)) :=
  ⟨(c4_amended_thm cRec4 ⟨1, 9, "m"⟩ 1 rfl).1 (by decide),
   (c4_amended_thm cRec4 ⟨2, 3, "m"⟩ 1 rfl).2 5 (by decide) rfl⟩

/-- Claim C7: atomicity of the index on transfer failure.  Download
direction: a transport error leaves the files table exactly as it was, only
the error log grows.  Upload direction: a transport error in the content
update of an indexed file, or in the creation of a new remote file, leaves
the table unchanged. -/
theorem c7_atomic_failure (env : Env) (uenv : UpEnv) (s : SyncState)
    (item : RemoteItem) (lp : String) (pid : Option Nat) (msg : String)
    (part : LocalFile) (fs : FS) (db : Db)
    (folderPath name remoteParentId : String) :
    (env.net item = .error (msg, part) →
      (DriveLocalSyncer.download_file env item lp pid s).db = s.db ∧
      (DriveLocalSyncer.download_file env item lp pid s).errorLogs
        = s.errorLogs ++ [item.name]) ∧
    (∀ rec lf,
      DatabaseManager.get_file_by_local_path db (folderPath ++ "/" ++ name) = some rec →
      fs (folderPath ++ "/" ++ name) = some lf →
      LocalDriveSyncer.needs_update rec lf = .ok true →
      uenv.updateFile rec.remote_id = .error msg →
      (LocalDriveSyncer.sync_local_file uenv fs db folderPath name remoteParentId).1 = db) ∧
    (DatabaseManager.get_file_by_local_path db (folderPath ++ "/" ++ name) = none →
      uenv.createFile name remoteParentId = .error msg →
      (LocalDriveSyncer.sync_local_file uenv fs db folderPath name remoteParentId).1 = db) := by
  refine ⟨?_, ?_, ?_⟩
  · intro hnet
    constructor <;>
      simp [DriveLocalSyncer.download_file, DriveLocalSyncer.perform_download, hnet]
  · intro rec lf hrec hlf hneed hup
    simp [LocalDriveSyncer.sync_local_file, LocalDriveSyncer.update_existing_file,
      hrec, hlf, hneed, hup]
  · intro hrec hcr
    simp [LocalDriveSyncer.sync_local_file, LocalDriveSyncer.upload_new_file,
      hrec, hcr]

/-- Transport failures everywhere, leaving a zero-byte partial file. -/
def cEnvBad : Env :=
  { listChildren := fun _ => [],
    net := fun _ => .error ("boom", ⟨0, 0, "p"⟩), dirStat := cDirStat }

/-- Upload-side transport failures everywhere. -/
def cUpEnvBad : UpEnv :=
  { updateFile := fun _ => .error "boom", createFile := fun _ _ => .error "boom" }

/-- An index record matching /root/u.txt that a 2-byte, mtime-5 local file
renders stale (stored remote size 1, stored remote mtime 0). -/
def cRec7 : FileRec :=
  { id := 1, type := "file", local_path := "/root/u.txt", remote_id := "u1",
    parent_id := some 0, name := "u.txt", checksum := none,
    last_modified_remote := some 0, last_modified_local := some 5,
    sync_status := "synced", file_size := some 1, local_size := some 2 }

/-- A one-record table holding cRec7. -/
def cDb7 : Db := { files := [cRec7], nextId := 2 }

/-- The local filesystem of the upload runs: one stale file. -/
def cFs7 : FS := fun p => if p = "/root/u.txt" then some ⟨2, 5, "m"⟩ else none

/-- A plain remote file item used in the failing download run. -/
def cItem7 : RemoteItem := ⟨"b1", "f.bin", "application/octet-stream", some 3, none, some 10⟩

/-- Claim C7, witness: a failed download at the empty state leaves the empty
table and logs the name; a failed content update of the stale indexed file
leaves cDb7 unchanged; a failed creation over an empty table leaves it
unchanged. -/
theorem c7_witness :
    ((DriveLocalSyncer.download_file cEnvBad cItem7 "/root" (some 0) s0).db = s0.db ∧
     (DriveLocalSyncer.download_file cEnvBad cItem7 "/root" (some 0) s0).errorLogs
       = s0.errorLogs ++ [cItem7.name]) ∧
    (LocalDriveSyncer.sync_local_file cUpEnvBad cFs7 cDb7 "/root" "u.txt" "root").1 = cDb7 ∧
    (LocalDriveSyncer.sync_local_file cUpEnvBad cFs7
       { files := [], nextId := 1 } "/root" "u.txt" "root").1 = { files := [], nextId := 1 } :=
  ⟨(c7_atomic_failure cEnvBad cUpEnvBad s0 cItem7 "/root" (some 0) "boom" ⟨0, 0, "p"⟩
      cFs7 cDb7 "/root" "u.txt" "root").1 rfl,
   (c7_atomic_failure cEnvBad cUpEnvBad s0 cItem7 "/root" (some 0) "boom" ⟨0, 0, "p"⟩
      cFs7 cDb7 "/root" "u.txt" "root").2.1 cRec7 ⟨2, 5, "m"⟩ rfl rfl rfl rfl,
   (c7_atomic_failure cEnvBad cUpEnvBad s0 cItem7 "/root" (some 0) "boom" ⟨0, 0, "p"⟩
      cFs7 { files := [], nextId := 1 } "/root" "u.txt" "root").2.2 rfl rfl⟩

/-- The arguments of one upsert call. -/
structure UpsertOp where
  fs : FS
  item : RemoteItem
  path : String
  parentId : Option Nat
  itemType : String

/-- The table before anything has been synchronized. -/
def emptyDb : Db := { files := [], nextId := 1 }

/-- A sequence of upsert calls applied in order. -/
def applyUpserts (ops : List UpsertOp) (db : Db) : Db :=
  ops.foldl
    (fun d op =>
      (DatabaseManager.update_file_record op.fs d op.item op.path op.parentId op.itemType).2)
    db

/-- Replacing the first remote-id match keeps a row-wise Boolean invariant,
provided the rewritten row satisfies it. -/
theorem replaceByRemoteId_all (p : FileRec → Bool) (l : List FileRec)
    (rid : String) (a : FileAttrs)
    (hl : l.all p = true) (ha : ∀ f, p (DatabaseManager.applyAttrs f a) = true) :
    (DatabaseManager.replaceByRemoteId l rid a).all p = true := by
  induction l with
  | nil => simp [DatabaseManager.replaceByRemoteId]
  | cons f rest ih =>
    simp only [List.all_cons, Bool.and_eq_true] at hl
    by_cases h : f.remote_id = rid
    · simp [DatabaseManager.replaceByRemoteId, h, ha, hl.2]
    · simp [DatabaseManager.replaceByRemoteId, h, hl.1, ih hl.2]

/-- One upsert keeps every row's sync_status at "synced". -/
theorem update_preserves_synced (fs : FS) (db : Db) (item : RemoteItem)
    (path : String) (pid : Option Nat) (ty : String)
    (h : db.files.all (fun r => r.sync_status == "synced") = true) :
    ((DatabaseManager.update_file_record fs db item path pid ty).2).files.all
      (fun r => r.sync_status == "synced") = true := by
  unfold DatabaseManager.update_file_record
  cases hf : DatabaseManager.get_file_by_remote_id db item.id with
  | some f =>
    simp only []
    exact replaceByRemoteId_all _ db.files item.id _ h
      (fun g => by simp [DatabaseManager.applyAttrs, DatabaseManager.prepare_file_attributes])
  | none =>
    simp only [List.all_append, Bool.and_eq_true]
    exact ⟨h, by simp [DatabaseManager.mkRec, DatabaseManager.prepare_file_attributes]⟩

/-- Claim C8: the record an upsert creates or updates always carries
sync_status "synced" (the only status value the core ever writes), and
after any sequence of upserts starting from the empty table every row
carries sync_status "synced". -/
theorem c8_sync_status :
    (∀ (fs : FS) (db : Db) (item : RemoteItem) (path : String)
        (pid : Option Nat) (ty : String),
      ((DatabaseManager.update_file_record fs db item path pid ty).1).sync_status
        = "synced") ∧
    (∀ ops : List UpsertOp,
      ((applyUpserts ops emptyDb).files.all (fun r => r.sync_status == "synced"))
        = true) := by
  constructor
  · intro fs db item path pid ty
    unfold DatabaseManager.update_file_record
    cases hf : DatabaseManager.get_file_by_remote_id db item.id <;>
      simp [DatabaseManager.applyAttrs, DatabaseManager.mkRec,
        DatabaseManager.prepare_file_attributes]
  · intro ops
    have key : ∀ (ops : List UpsertOp) (db : Db),
        db.files.all (fun r => r.sync_status == "synced") = true →
        ((applyUpserts ops db).files.all (fun r => r.sync_status == "synced")) = true := by
      intro ops
      induction ops with
      | nil => intro db h; exact h
      | cons op rest ih =>
        intro db h
        exact ih _ (update_preserves_synced op.fs db op.item op.path op.parentId op.itemType h)
    exact key ops emptyDb (by simp [emptyDb])

/-- Finding by remote id after an in-place replace keyed by the same id:
the first match is the rewritten row, matches further right are untouched
only if the scan never reaches them, exactly as the replacement stops at
the first match. -/
theorem find?_replaceByRemoteId (l : List FileRec) (rid : String) (a : FileAttrs)
    (ha : a.remote_id = rid) :
    (DatabaseManager.replaceByRemoteId l rid a).find? (fun f => f.remote_id == rid)
      = (l.find? (fun f => f.remote_id == rid)).map
          (fun f => DatabaseManager.applyAttrs f a) := by
  induction l with
  | nil => simp [DatabaseManager.replaceByRemoteId]
  | cons f rest ih =>
    by_cases h : f.remote_id = rid
    · rw [DatabaseManager.replaceByRemoteId]
      simp [h, List.find?_cons, DatabaseManager.applyAttrs, ha]
    · rw [DatabaseManager.replaceByRemoteId]
      simp only [if_neg h]
      rw [List.find?_cons_of_neg _ (by simp [h]),
        List.find?_cons_of_neg _ (by simp [h]), ih]

/-- The in-place replace keyed by a remote id does not change how many rows
carry that id. -/
theorem countP_replaceByRemoteId (l : List FileRec) (rid : String) (a : FileAttrs)
    (ha : a.remote_id = rid) :
    (DatabaseManager.replaceByRemoteId l rid a).countP (fun f => f.remote_id == rid)
      = l.countP (fun f => f.remote_id == rid) := by
  induction l with
  | nil => simp [DatabaseManager.replaceByRemoteId]
  | cons f rest ih =>
    by_cases h : f.remote_id = rid
    · rw [DatabaseManager.replaceByRemoteId]
      simp [h, List.countP_cons, DatabaseManager.applyAttrs, ha]
    · rw [DatabaseManager.replaceByRemoteId]
      simp only [if_neg h]
      rw [List.countP_cons_of_neg _ _ (by simp [h]),
        List.countP_cons_of_neg _ _ (by simp [h]), ih]

/-- How many rows of the table carry a given remote id. -/
def countRid (db : Db) (rid : String) : Nat :=
  db.files.countP (fun f => f.remote_id == rid)

/-- After an upsert, looking up the item's remote id returns exactly the
row the upsert reported. -/
theorem upsert_finds_self (fs : FS) (db : Db) (item : RemoteItem)
    (path : String) (pid : Option Nat) (ty : String) :
    DatabaseManager.get_file_by_remote_id
        (DatabaseManager.update_file_record fs db item path pid ty).2 item.id
      = some (DatabaseManager.update_file_record fs db item path pid ty).1 := by
  unfold DatabaseManager.update_file_record
  cases hf : DatabaseManager.get_file_by_remote_id db item.id with
  | some f =>
    simp only [DatabaseManager.get_file_by_remote_id] at hf
    simp only [DatabaseManager.get_file_by_remote_id]
    rw [find?_replaceByRemoteId db.files item.id _
      (by simp [DatabaseManager.prepare_file_attributes]), hf]
    rfl
  | none =>
    simp only [DatabaseManager.get_file_by_remote_id] at hf
    simp only [DatabaseManager.get_file_by_remote_id, List.find?_append, hf,
      Option.none_or]
    rw [List.find?_cons_of_pos _
      (by simp [DatabaseManager.mkRec, DatabaseManager.prepare_file_attributes])]

/-- After an upsert into a table holding at most one row with the item's
remote id, exactly one row carries that id. -/
theorem upsert_count (fs : FS) (db : Db) (item : RemoteItem) (path : String)
    (pid : Option Nat) (ty : String) (h : countRid db item.id ≤ 1) :
    countRid (DatabaseManager.update_file_record fs db item path pid ty).2 item.id = 1 := by
  unfold DatabaseManager.update_file_record
  cases hf : DatabaseManager.get_file_by_remote_id db item.id with
  | some f =>
    simp only [DatabaseManager.get_file_by_remote_id] at hf
    have hmem := List.mem_of_find?_eq_some hf
    have hp := List.find?_some hf
    have hpos : 0 < db.files.countP (fun g => g.remote_id == item.id) := by
      rw [List.countP_pos_iff]
      exact ⟨f, hmem, hp⟩
    unfold countRid at h ⊢
    simp only []
    rw [countP_replaceByRemoteId db.files item.id _
      (by simp [DatabaseManager.prepare_file_attributes])]
    omega
  | none =>
    simp only [DatabaseManager.get_file_by_remote_id] at hf
    have hzero : db.files.countP (fun g => g.remote_id == item.id) = 0 := by
      rw [List.countP_eq_zero]
      intro g hg
      have := List.find?_eq_none.mp hf g hg
      simpa using this
    unfold countRid
    simp only [List.countP_append, hzero]
    rw [List.countP_cons_of_pos _ _
      (by simp [DatabaseManager.mkRec, DatabaseManager.prepare_file_attributes])]
    simp

/-- When the lookup by the item's remote id already finds a row, the upsert
returns that row rewritten in place with the prepared attributes. -/
theorem upsert_found (fs : FS) (db : Db) (item : RemoteItem) (path : String)
    (pid : Option Nat) (ty : String) (f : FileRec)
    (h : DatabaseManager.get_file_by_remote_id db item.id = some f) :
    (DatabaseManager.update_file_record fs db item path pid ty).1
      = DatabaseManager.applyAttrs f
          (DatabaseManager.prepare_file_attributes fs item path pid ty) := by
  unfold DatabaseManager.update_file_record
  rw [h]

/-- Claim C5: two successive upserts with the same remote id — whatever the
names, paths, parents and types — leave exactly one row with that id; a
lookup by the id returns the row of the second call, which kept the first
call's primary key (updated in place, no new row) and carries the second
call's name, local path, parent and type. -/
theorem c5_upsert_stable (fs1 fs2 : FS) (db : Db) (it1 it2 : RemoteItem)
    (p1 p2 : String) (pid1 pid2 : Option Nat) (ty1 ty2 : String)
    (hid : it1.id = it2.id) (hcount : countRid db it2.id ≤ 1) :
    countRid (DatabaseManager.update_file_record fs2
        (DatabaseManager.update_file_record fs1 db it1 p1 pid1 ty1).2
        it2 p2 pid2 ty2).2 it2.id = 1 ∧
    DatabaseManager.get_file_by_remote_id
        (DatabaseManager.update_file_record fs2
          (DatabaseManager.update_file_record fs1 db it1 p1 pid1 ty1).2
          it2 p2 pid2 ty2).2 it2.id
      = some (DatabaseManager.update_file_record fs2
          (DatabaseManager.update_file_record fs1 db it1 p1 pid1 ty1).2
          it2 p2 pid2 ty2).1 ∧
    (DatabaseManager.update_file_record fs2
        (DatabaseManager.update_file_record fs1 db it1 p1 pid1 ty1).2
        it2 p2 pid2 ty2).1.id
      = (DatabaseManager.update_file_record fs1 db it1 p1 pid1 ty1).1.id ∧
    (DatabaseManager.update_file_record fs2
        (DatabaseManager.update_file_record fs1 db it1 p1 pid1 ty1).2
        it2 p2 pid2 ty2).1.name = it2.name ∧
    (DatabaseManager.update_file_record fs2
        (DatabaseManager.update_file_record fs1 db it1 p1 pid1 ty1).2
        it2 p2 pid2 ty2).1.local_path = p2 ∧
    (DatabaseManager.update_file_record fs2
        (DatabaseManager.update_file_record fs1 db it1 p1 pid1 ty1).2
        it2 p2 pid2 ty2).1.parent_id = pid2 ∧
    (DatabaseManager.update_file_record fs2
        (DatabaseManager.update_file_record fs1 db it1 p1 pid1 ty1).2
        it2 p2 pid2 ty2).1.type = ty2 := by
  have hc1 : countRid (DatabaseManager.update_file_record fs1 db it1 p1 pid1 ty1).2 it2.id = 1 := by
    rw [← hid] at hcount ⊢
    exact upsert_count fs1 db it1 p1 pid1 ty1 hcount
  have hget1 : DatabaseManager.get_file_by_remote_id
      (DatabaseManager.update_file_record fs1 db it1 p1 pid1 ty1).2 it2.id
      = some (DatabaseManager.update_file_record fs1 db it1 p1 pid1 ty1).1 := by
    rw [← hid]
    exact upsert_finds_self fs1 db it1 p1 pid1 ty1
  refine ⟨upsert_count fs2 _ it2 p2 pid2 ty2 (le_of_eq hc1),
    upsert_finds_self fs2 _ it2 p2 pid2 ty2, ?_⟩
  have hsecond := upsert_found fs2
    (DatabaseManager.update_file_record fs1 db it1 p1 pid1 ty1).2 it2 p2 pid2 ty2
    (DatabaseManager.update_file_record fs1 db it1 p1 pid1 ty1).1 hget1
  rw [hsecond]
  simp [DatabaseManager.applyAttrs, DatabaseManager.prepare_file_attributes]

/-- Claim C5, witness: upserting remote id "r1" twice into the empty table,
first as name a at /root/a, then as name b at /root/b — one row remains,
the lookup returns it, the primary key is the one from the first call and
the attributes are the second call's. -/
theorem c5_witness :
    countRid (DatabaseManager.update_file_record (fun _ => none)
        (DatabaseManager.update_file_record (fun _ => none) emptyDb
          ⟨"r1", "a", "text/plain", some 1, none, some 3⟩ "/root/a" (some 0) "file").2
        ⟨"r1", "b", "text/plain", some 2, none, some 4⟩ "/root/b" (some 0) "file").2 "r1" = 1 ∧
    DatabaseManager.get_file_by_remote_id
        (DatabaseManager.update_file_record (fun _ => none)
          (DatabaseManager.update_file_record (fun _ => none) emptyDb
            ⟨"r1", "a", "text/plain", some 1, none, some 3⟩ "/root/a" (some 0) "file").2
          ⟨"r1", "b", "text/plain", some 2, none, some 4⟩ "/root/b" (some 0) "file").2 "r1"
      = some (DatabaseManager.update_file_record (fun _ => none)
          (DatabaseManager.update_file_record (fun _ => none) emptyDb
            ⟨"r1", "a", "text/plain", some 1, none, some 3⟩ "/root/a" (some 0) "file").2
          ⟨"r1", "b", "text/plain", some 2, none, some 4⟩ "/root/b" (some 0) "file").1 ∧
    (DatabaseManager.update_file_record (fun _ => none)
        (DatabaseManager.update_file_record (fun _ => none) emptyDb
          ⟨"r1", "a", "text/plain", some 1, none, some 3⟩ "/root/a" (some 0) "file").2
        ⟨"r1", "b", "text/plain", some 2, none, some 4⟩ "/root/b" (some 0) "file").1.id
      = (DatabaseManager.update_file_record (fun _ => none) emptyDb
          ⟨"r1", "a", "text/plain", some 1, none, some 3⟩ "/root/a" (some 0) "file").1.id ∧
    (DatabaseManager.update_file_record (fun _ => none)
        (DatabaseManager.update_file_record (fun _ => none) emptyDb
          ⟨"r1", "a", "text/plain", some 1, none, some 3⟩ "/root/a" (some 0) "file").2
        ⟨"r1", "b", "text/plain", some 2, none, some 4⟩ "/root/b" (some 0) "file").1.name = "b" ∧
    (DatabaseManager.update_file_record (fun _ => none)
        (DatabaseManager.update_file_record (fun _ => none) emptyDb
          ⟨"r1", "a", "text/plain", some 1, none, some 3⟩ "/root/a" (some 0) "file").2
        ⟨"r1", "b", "text/plain", some 2, none, some 4⟩ "/root/b" (some 0) "file").1.local_path = "/root/b" ∧
    (DatabaseManager.update_file_record (fun _ => none)
        (DatabaseManager.update_file_record (fun _ => none) emptyDb
          ⟨"r1", "a", "text/plain", some 1, none, some 3⟩ "/root/a" (some 0) "file").2
        ⟨"r1", "b", "text/plain", some 2, none, some 4⟩ "/root/b" (some 0) "file").1.parent_id = some 0 ∧
    (DatabaseManager.update_file_record (fun _ => none)
        (DatabaseManager.update_file_record (fun _ => none) emptyDb
          ⟨"r1", "a", "text/plain", some 1, none, some 3⟩ "/root/a" (some 0) "file").2
        ⟨"r1", "b", "text/plain", some 2, none, some 4⟩ "/root/b" (some 0) "file").1.type = "file" :=
  c5_upsert_stable (fun _ => none) (fun _ => none) emptyDb
    ⟨"r1", "a", "text/plain", some 1, none, some 3⟩
    ⟨"r1", "b", "text/plain", some 2, none, some 4⟩
    "/root/a" "/root/b" (some 0) (some 0) "file" "file" rfl (by decide)

/-- The per-folder loop splits over concatenation: an error in the first
part aborts, otherwise the second part starts from where the first ended. -/
theorem processItems_append (step : RemoteItem → SyncState → Except SyncErr SyncState)
    (l1 l2 : List RemoteItem) (s : SyncState) :
    DriveLocalSyncer.processItems step (l1 ++ l2) s
      = match DriveLocalSyncer.processItems step l1 s with
        | .error e => .error e
        | .ok s1 => DriveLocalSyncer.processItems step l2 s1 := by
  induction l1 generalizing s with
  | nil => simp [DriveLocalSyncer.processItems]
  | cons it rest ih =>
    simp only [List.cons_append, DriveLocalSyncer.processItems]
    cases step it s <;> simp [ih]

/-- The download-direction check cannot raise when the remote item carries a
modifiedTime. -/
theorem needs_update_ok (fs : FS) (item : RemoteItem) (path : String)
    (h : item.modifiedTime.isSome = true) :
    ∃ b logs, DriveLocalSyncer.needs_update fs item path = .ok (b, logs) := by
  obtain ⟨rm, hrm⟩ := Option.isSome_iff_exists.mp h
  cases hfs : fs path with
  | none => exact ⟨true, [], by simp [DriveLocalSyncer.needs_update, hfs]⟩
  | some lf =>
    by_cases hsz : item.size.getD 0 ≤ lf.size
    · exact ⟨false, [(item.size.getD 0, lf.size)],
        by simp [DriveLocalSyncer.needs_update, hfs, hsz]⟩
    · exact ⟨decide (lf.mtime < rm), [(item.size.getD 0, lf.size)],
        by simp [DriveLocalSyncer.needs_update, hfs, hsz, hrm]⟩

/-- The per-file handler cannot raise when the remote item carries a
modifiedTime: the download itself is guarded inside. -/
theorem process_file_item_ok (env : Env) (item : RemoteItem) (lp : String)
    (pid : Option Nat) (s : SyncState) (h : item.modifiedTime.isSome = true) :
    ∃ s', DriveLocalSyncer.process_file_item env item lp pid s = .ok s' := by
  obtain ⟨b, logs, hb⟩ := needs_update_ok s.fs item (lp ++ "/" ++ item.name) h
  simp only [DriveLocalSyncer.process_file_item]
  rw [hb]
  cases b <;> exact ⟨_, rfl⟩

/-- On a file child the walk's per-child step is the file handler alone. -/
theorem childStep_file (env : Env) (fuel : Nat) (lp : String) (pid : Option Nat)
    (item : RemoteItem) (s : SyncState) (h : item.mimeType ≠ folderMime) :
    DriveLocalSyncer.childStep env fuel lp pid item s
      = DriveLocalSyncer.process_file_item env item lp pid s :=
  DriveLocalSyncer.processChild_file env _ item lp pid s h

/-- A folder's loop over file children that all carry a modifiedTime never
raises, whatever the transfer outcomes. -/
theorem processItems_ok (env : Env) (fuel : Nat) (lp : String) (pid : Option Nat)
    (items : List RemoteItem) (s : SyncState)
    (hmime : ∀ it ∈ items, it.mimeType ≠ folderMime)
    (hmt : ∀ it ∈ items, it.modifiedTime.isSome = true) :
    ∃ s', DriveLocalSyncer.processItems (DriveLocalSyncer.childStep env fuel lp pid) items s
      = .ok s' := by
  induction items generalizing s with
  | nil => exact ⟨s, rfl⟩
  | cons it rest ih =>
    obtain ⟨s1, hs1⟩ := process_file_item_ok env it lp pid s (hmt it (by simp))
    have hstep : DriveLocalSyncer.childStep env fuel lp pid it s = .ok s1 := by
      rw [childStep_file env fuel lp pid it s (hmime it (by simp))]
      exact hs1
    obtain ⟨s2, hs2⟩ := ih s1 (fun x hx => hmime x (List.mem_cons_of_mem it hx))
      (fun x hx => hmt x (List.mem_cons_of_mem it hx))
    exact ⟨s2, by simp [DriveLocalSyncer.processItems, hstep, hs2]⟩

/-- Claim C6: in a folder of file children (each carrying a modifiedTime,
as Drive listings do), a transport failure on one child whose local copy is
absent only writes the partial file and the per-file error-log line; the
rest of the loop then runs exactly as it would from that state — the
siblings after the failing child are still processed, their record upserts
included, and the folder-level walk returns normally (no exception
escapes). -/
theorem c6_partial_failure (env : Env) (fuel : Nat) (lp : String) (pid : Option Nat)
    (pre post : List RemoteItem) (bad : RemoteItem) (s s1 : SyncState)
    (msg : String) (part : LocalFile)
    (hmime : ∀ it ∈ pre ++ bad :: post, it.mimeType ≠ folderMime)
    (hmt : ∀ it ∈ pre ++ bad :: post, it.modifiedTime.isSome = true)
    (hpre : DriveLocalSyncer.processItems (DriveLocalSyncer.childStep env fuel lp pid) pre s
      = .ok s1)
    (habsent : s1.fs (lp ++ "/" ++ bad.name) = none)
    (hnet : env.net bad = .error (msg, part)) :
    DriveLocalSyncer.processItems (DriveLocalSyncer.childStep env fuel lp pid)
        (pre ++ bad :: post) s
      = DriveLocalSyncer.processItems (DriveLocalSyncer.childStep env fuel lp pid) post
          { s1 with
              fs := writeF s1.fs (DriveLocalSyncer.downloadTargetPath lp bad) part,
              errorLogs := s1.errorLogs ++ [bad.name] } ∧
    ∃ s2, DriveLocalSyncer.processItems (DriveLocalSyncer.childStep env fuel lp pid)
        (pre ++ bad :: post) s = .ok s2 := by
  have hbadmime : bad.mimeType ≠ folderMime := hmime bad (by simp)
  have hstep : DriveLocalSyncer.childStep env fuel lp pid bad s1
      = .ok { s1 with
          fs := writeF s1.fs (DriveLocalSyncer.downloadTargetPath lp bad) part,
          errorLogs := s1.errorLogs ++ [bad.name] } := by
    rw [childStep_file env fuel lp pid bad s1 hbadmime]
    simp [DriveLocalSyncer.process_file_item, DriveLocalSyncer.needs_update, habsent,
      DriveLocalSyncer.download_file, DriveLocalSyncer.perform_download, hnet]
  have hmain : DriveLocalSyncer.processItems (DriveLocalSyncer.childStep env fuel lp pid)
      (pre ++ bad :: post) s
      = DriveLocalSyncer.processItems (DriveLocalSyncer.childStep env fuel lp pid) post
          { s1 with
              fs := writeF s1.fs (DriveLocalSyncer.downloadTargetPath lp bad) part,
              errorLogs := s1.errorLogs ++ [bad.name] } := by
    rw [processItems_append, hpre]
    simp only [DriveLocalSyncer.processItems, hstep]
  refine ⟨hmain, ?_⟩
  rw [hmain]
  exact processItems_ok env fuel lp pid post _
    (fun x hx => hmime x (by simp [hx])) (fun x hx => hmt x (by simp [hx]))

/-- Transport failures everywhere, each leaving a zero-byte partial file. -/
def cEnv6 : Env :=
  { listChildren := fun _ => [],
    net := fun _ => .error ("boom", ⟨0, 0, "p"⟩), dirStat := cDirStat }

/-- Claim C6, witness: a folder whose single file child's transfer fails —
the loop returns normally with only the partial file and the error-log
line added. -/
theorem c6_witness :
    (DriveLocalSyncer.processItems (DriveLocalSyncer.childStep cEnv6 1 "/root" (some 0))
        ([] ++ cItem7 :: []) s0
      = DriveLocalSyncer.processItems (DriveLocalSyncer.childStep cEnv6 1 "/root" (some 0)) []
          { s0 with
              fs := writeF s0.fs (DriveLocalSyncer.downloadTargetPath "/root" cItem7) ⟨0, 0, "p"⟩,
              errorLogs := s0.errorLogs ++ [cItem7.name] }) ∧
    ∃ s2, DriveLocalSyncer.processItems (DriveLocalSyncer.childStep cEnv6 1 "/root" (some 0))
        ([] ++ cItem7 :: []) s0 = .ok s2 :=
  c6_partial_failure cEnv6 1 "/root" (some 0) [] [] cItem7 s0 s0 "boom" ⟨0, 0, "p"⟩
    (by intro it hit; simp at hit; subst hit; decide)
    (by intro it hit; simp at hit; subst hit; decide)
    rfl rfl rfl

/-- A remote file item with no modifiedTime field. -/
def cItem10 : RemoteItem :=
  ⟨"m1", "x.bin", "application/octet-stream", none, none, some 100⟩

/-- A state holding a 10-byte local copy of that file. -/
def cS10 : SyncState :=
  { fs := fun p => if p = "/root/x.bin" then some ⟨10, 0, "h"⟩ else none,
    db := { files := [], nextId := 1 },
    downloads := [], infoLogs := [], errorLogs := [] }

/-- Claim C10: when the remote item has no modifiedTime, the local file
exists, and the remote size strictly exceeds the local size, the
download-direction check raises AttributeError instead of deciding; the
error is raised in the per-file check, outside the download handler's
try/except, so it escapes the per-file handler and aborts the folder-level
loop. -/
theorem c10_missing_mtime (env : Env) (fuel : Nat) (s : SyncState) (item : RemoteItem)
    (lp : String) (pid : Option Nat) (lf : LocalFile) (rest : List RemoteItem)
    (hmt : item.modifiedTime = none)
    (hfs : s.fs (lp ++ "/" ++ item.name) = some lf)
    (hsz : lf.size < item.size.getD 0)
    (hmime : item.mimeType ≠ folderMime) :
    DriveLocalSyncer.needs_updateB s.fs item (lp ++ "/" ++ item.name)
      = .error .attributeError ∧
    DriveLocalSyncer.process_file_item env item lp pid s = .error .attributeError ∧
    DriveLocalSyncer.processItems (DriveLocalSyncer.childStep env fuel lp pid)
      (item :: rest) s = .error .attributeError := by
  have h2 : DriveLocalSyncer.process_file_item env item lp pid s = .error .attributeError := by
    simp [DriveLocalSyncer.process_file_item, DriveLocalSyncer.needs_update, hfs,
      Nat.not_le.mpr hsz, hmt]
  refine ⟨?_, h2, ?_⟩
  · simp [DriveLocalSyncer.needs_updateB, DriveLocalSyncer.needs_update, hfs,
      Nat.not_le.mpr hsz, hmt, Except.map]
  · have hstep : DriveLocalSyncer.childStep env fuel lp pid item s
        = .error .attributeError := by
      rw [childStep_file env fuel lp pid item s hmime]
      exact h2
    simp [DriveLocalSyncer.processItems, hstep]

/-- Claim C10, witness: dropping modifiedTime from a 100-byte remote item
over an existing 10-byte local file makes the check and the whole per-folder
loop end in AttributeError. -/
theorem c10_witness :
    DriveLocalSyncer.needs_updateB cS10.fs cItem10 ("/root" ++ "/" ++ cItem10.name)
      = .error .attributeError ∧
    DriveLocalSyncer.process_file_item cEnv3 cItem10 "/root" (some 0) cS10
      = .error .attributeError ∧
    DriveLocalSyncer.processItems (DriveLocalSyncer.childStep cEnv3 1 "/root" (some 0))
      (cItem10 :: []) cS10 = .error .attributeError :=
  c10_missing_mtime cEnv3 1 cS10 cItem10 "/root" (some 0) ⟨10, 0, "h"⟩ []
    rfl rfl (by decide) (by decide)
